import Mathlib

/-!
Verification of the crdlib dimensional-analysis and unit-conversion engine.

The definitions below are a shallow embedding of the Python sources:
  - `crdlib/properties/units.py` (descriptor algebra: `Dimension`,
    `CompositeDimension`, `GenericDimension`, `GenericCompositeDimension`),
  - `crdlib/properties/units/units.py` (unit family enumerations, `SI_UNITS`),
  - `crdlib/properties/units/converters.py` (per-family converters and the
    composite converter),
  - `crdlib/properties/properties.py` (physical property wrappers).
Numeric values are embedded as exact rationals `ℚ`; Python float literals such
as `273.15` denote the corresponding rational. Python exceptions are embedded
as `Except ConvError`.
-/

namespace Crdlib

/-- Error kinds raised by the conversion engine
(`crdlib/properties/exceptions.py`). Only the kinds reachable from the
embedded operations are modelled. -/
inductive ConvError where
  | InvalidUnitConversion
  | UndefinedConverter
deriving DecidableEq, Repr

/-- Members of `TemperatureUnit` (units/units.py:17). -/
inductive TemperatureUnit where
  | CELCIUS | KELVIN | FAHRENHEIT | RANKINE
deriving DecidableEq, Repr

/-- Members of `PressureUnit` (units/units.py:54). -/
inductive PressureUnit where
  | MILLI_BAR | BAR | PSI | PASCAL | KILO_PASCAL
deriving DecidableEq, Repr

/-- Members of `LengthUnit` (units/units.py:24). -/
inductive LengthUnit where
  | MILLI_METER | CENTI_METER | METER | KILO_METER | INCH | FOOT
deriving DecidableEq, Repr

/-- Members of `MassUnit` (units/units.py:33). -/
inductive MassUnit where
  | MILLI_GRAM | GRAM | KILO_GRAM | METRIC_TONNE | POUND
deriving DecidableEq, Repr

/-- Members of `AmountUnit` (units/units.py:41). -/
inductive AmountUnit where
  | MOL | KILO_MOL
deriving DecidableEq, Repr

/-- Members of `TimeUnit` (units/units.py:46). -/
inductive TimeUnit where
  | MILLI_SECOND | SECOND | MINUTE | HOUR | DAY
deriving DecidableEq, Repr

/-- Members of `EnergyUnit` (units/units.py:62). -/
inductive EnergyUnit where
  | JOULE | KILO_JOULE | MEGA_JOULE | GIGA_JOULE | CALORIE | KILO_CALORIE | BTU
deriving DecidableEq, Repr

/-- A measurement unit together with the family (enum class) it belongs to.
Python keeps the families as separate `MeasurementUnit` enum subclasses; the
sum type tags each member with its family. -/
inductive MeasurementUnit where
  | temperature (u : TemperatureUnit)
  | pressure (u : PressureUnit)
  | length (u : LengthUnit)
  | mass (u : MassUnit)
  | amount (u : AmountUnit)
  | time (u : TimeUnit)
  | energy (u : EnergyUnit)
  | nonDimensional
deriving DecidableEq, Repr

/-- The unit families: one tag per `MeasurementUnit` enum subclass
(`type(unit)` in Python). -/
inductive UnitType where
  | TemperatureT | PressureT | LengthT | MassT | AmountT | TimeT | EnergyT
  | NonDimensionalT
deriving DecidableEq, Repr

/-- `type(self.unit)`: the family of a unit. -/
def MeasurementUnit.unitType : MeasurementUnit → UnitType
  | .temperature _ => .TemperatureT
  | .pressure _ => .PressureT
  | .length _ => .LengthT
  | .mass _ => .MassT
  | .amount _ => .AmountT
  | .time _ => .TimeT
  | .energy _ => .EnergyT
  | .nonDimensional => .NonDimensionalT

/-- `GenericDimension` (units.py:284): a unit family raised to a power. -/
structure GenericDimension where
  unit_type : UnitType
  power : ℚ
deriving DecidableEq, Repr

/-- `Dimension` (units.py:348): a measurement unit raised to a power.
`Dimension.__init__` only sets `unit`; `power` starts at the dataclass
default `1`. -/
structure Dimension where
  unit : MeasurementUnit
  power : ℚ
deriving DecidableEq, Repr

/-- `Dimension(unit)`: the constructor leaves `power = 1` (units.py:365). -/
def MeasurementUnit.dim (u : MeasurementUnit) : Dimension := ⟨u, 1⟩

/-- `GenericCompositeDimension` (units.py:453). -/
structure GenericCompositeDimension where
  numerator : List GenericDimension
  denominator : List GenericDimension
deriving DecidableEq, Repr

/-- `CompositeDimension` (units.py:545). -/
structure CompositeDimension where
  numerator : List Dimension
  denominator : List Dimension
deriving DecidableEq, Repr

/-- `Dimension.to_generic` (units.py:393). -/
def Dimension.to_generic (d : Dimension) : GenericDimension :=
  ⟨d.unit.unitType, d.power⟩

/-- `CompositeDimension.to_generic` (units.py:588). -/
def CompositeDimension.to_generic (c : CompositeDimension) : GenericCompositeDimension :=
  ⟨c.numerator.map Dimension.to_generic, c.denominator.map Dimension.to_generic⟩

/-- `Dimension.isinstance(generic)` (units.py:384): the unit must belong to the
generic's family and the powers must agree. -/
def Dimension.isinstance (d : Dimension) (g : GenericDimension) : Bool :=
  d.unit.unitType == g.unit_type && d.power == g.power

/-- `GenericDimension.__eq__` (units.py:337): same family, same power. -/
def GenericDimension.eq (a b : GenericDimension) : Bool :=
  a.unit_type == b.unit_type && a.power == b.power

/-- `GenericCompositeDimension.__eq__` (units.py:525): Python compares
`set(numerator)` and `set(denominator)`, i.e. order-independent and
duplicate-collapsing equality; embedded as equality of the `Finset`s of the
two lists. -/
def GenericCompositeDimension.eqSet (a b : GenericCompositeDimension) : Bool :=
  a.numerator.toFinset == b.numerator.toFinset
    && a.denominator.toFinset == b.denominator.toFinset

/-- `CompositeDimension.__eq__` (units.py:647): same set-based comparison. -/
def CompositeDimension.eqSet (a b : CompositeDimension) : Bool :=
  a.numerator.toFinset == b.numerator.toFinset
    && a.denominator.toFinset == b.denominator.toFinset

/-- `CompositeDimension.isinstance(generic)` (units.py:583): defined as
`self.to_generic() == generic` for a `GenericCompositeDimension` argument. -/
def CompositeDimension.isinstance (c : CompositeDimension)
    (g : GenericCompositeDimension) : Bool :=
  GenericCompositeDimension.eqSet c.to_generic g

/-- `CompositeDimension.get_numerator(generic)` (units.py:594): the first
numerator entry that `isinstance`-matches the generic dimension; the `default`
argument is `None` at every converter call site, embedded as `Option`. -/
def CompositeDimension.get_numerator (c : CompositeDimension)
    (g : GenericDimension) : Option Dimension :=
  c.numerator.find? (fun n => n.isinstance g)

/-- `CompositeDimension.get_denominator(generic)` (units.py:602). -/
def CompositeDimension.get_denominator (c : CompositeDimension)
    (g : GenericDimension) : Option Dimension :=
  c.denominator.find? (fun d => d.isinstance g)

/-- `Dimension.__pow__` (units.py:426): `self.power *= power; return self`.
This is the value computed for the mutated receiver; the in-place aspect is
modelled by `DimensionHeap.powAt` below. -/
def Dimension.pow (d : Dimension) (n : ℚ) : Dimension :=
  ⟨d.unit, d.power * n⟩

/-- `GenericDimension.__pow__` (units.py:333): `self.power *= power;
return self`. -/
def GenericDimension.pow (g : GenericDimension) (n : ℚ) : GenericDimension :=
  ⟨g.unit_type, g.power * n⟩

/-- `Dimension.__mul__` with a `Dimension` argument (units.py:402):
`CompositeDimension(numerator=[self, descriptor])`. -/
def Dimension.mulDim (a b : Dimension) : CompositeDimension := ⟨[a, b], []⟩

/-- `Dimension.__truediv__` with a `Dimension` argument (units.py:416):
`CompositeDimension(numerator=[self], denominator=[descriptor])`. -/
def Dimension.truedivDim (a b : Dimension) : CompositeDimension := ⟨[a], [b]⟩

/-- `CompositeDimension.__mul__` with a `Dimension` argument (units.py:617):
copies both sides and appends the dimension to the numerator. -/
def CompositeDimension.mulDim (c : CompositeDimension) (d : Dimension) :
    CompositeDimension :=
  ⟨c.numerator ++ [d], c.denominator⟩

/-- `CompositeDimension.__truediv__` with a `Dimension` argument
(units.py:634): copies both sides and appends the dimension to the
denominator. -/
def CompositeDimension.truedivDim (c : CompositeDimension) (d : Dimension) :
    CompositeDimension :=
  ⟨c.numerator, c.denominator ++ [d]⟩

/-- `CompositeDimension.__mul__` with a `CompositeDimension` argument
(units.py:613): extends the copied numerator with the argument's numerator and
the copied denominator with the argument's denominator. -/
def CompositeDimension.mulComposite (a b : CompositeDimension) :
    CompositeDimension :=
  ⟨a.numerator ++ b.numerator, a.denominator ++ b.denominator⟩

/-- `CompositeDimension.__truediv__` with a `CompositeDimension` argument,
embedded exactly as the source (units.py:630-633):
`numerator.extend(descriptor.denominator)` and
`denominator.extend(descriptor.denominator)` — the denominator is extended
with the argument's *denominator*, not its numerator. -/
def CompositeDimension.truedivComposite (a b : CompositeDimension) :
    CompositeDimension :=
  ⟨a.numerator ++ b.denominator, a.denominator ++ b.denominator⟩

/-- The division the spec describes (§4.1 "Division mirrors this by appending
to numerator/denominator respectively"), matching the generic counterpart
`GenericCompositeDimension.__truediv__` (units.py:505-507): the result
denominator is the left denominator extended with the right *numerator*.
Stated separately so the source behaviour can be compared against it. -/
def CompositeDimension.truedivCompositeSpec (a b : CompositeDimension) :
    CompositeDimension :=
  ⟨a.numerator ++ b.denominator, a.denominator ++ b.numerator⟩

/-- `MeasurementUnitMeta.__mul__` for `unit_cls * GenericDimension`
(units.py:95-98). -/
def unitTypeMulGeneric (t : UnitType) (g : GenericDimension) :
    GenericCompositeDimension :=
  ⟨[⟨t, 1⟩, g], []⟩

/-- `MeasurementUnitMeta.__truediv__` for `unit_cls / unit_cls`
(units.py:124-128). -/
def unitTypeTruedivUnitType (a b : UnitType) : GenericCompositeDimension :=
  ⟨[⟨a, 1⟩], [⟨b, 1⟩]⟩

/-- `GenericCompositeDimension.__truediv__` with a `GenericDimension`
argument (units.py:511-515). -/
def GenericCompositeDimension.truedivGeneric (c : GenericCompositeDimension)
    (g : GenericDimension) : GenericCompositeDimension :=
  ⟨c.numerator, c.denominator ++ [g]⟩

/-- `GenericCompositeDimension.__truediv__` with a `MeasurementUnitType`
argument (units.py:516-520). -/
def GenericCompositeDimension.truedivUnitType (c : GenericCompositeDimension)
    (t : UnitType) : GenericCompositeDimension :=
  ⟨c.numerator, c.denominator ++ [⟨t, 1⟩]⟩

/-! ## Converters (`crdlib/properties/units/converters.py`)

Multiplier helpers (converters.py:51-88). The Python leading-underscore names
are kept without the leading underscore. -/

def from_milliunit_to_unit : ℚ := 1 / 1000

def from_centiunit_to_unit : ℚ := 1 / 100

def from_kilounit_to_unit : ℚ := 1000

def from_megaunit_to_unit : ℚ := 1000000

def from_gigaunit_to_unit : ℚ := 1000000000

def from_unit_to_milliunit : ℚ := 1000

def from_unit_to_centiunit : ℚ := 100

def from_unit_to_kilounit : ℚ := 1 / 1000

def from_unit_to_megaunit : ℚ := 1 / 1000000

def from_unit_to_gigaunit : ℚ := 1 / 1000000000

namespace TemperatureUnitConverter

/-- converters.py:248 -/
def from_celcius_to_kelvin (celcius : ℚ) : ℚ := celcius + 273.15

/-- converters.py:252 -/
def from_celcius_to_fahrenheit (celcius : ℚ) : ℚ := 1.8 * celcius + 32

/-- converters.py:256 -/
def from_celcius_to_rankine (celcius : ℚ) : ℚ :=
  from_celcius_to_kelvin celcius * 1.8

/-- converters.py:260 -/
def from_fahrenhet_to_celcius (fahrenheit : ℚ) : ℚ := (fahrenheit - 32) / 1.8

/-- converters.py:264 -/
def from_kelvin_to_celcius (kelvin : ℚ) : ℚ := kelvin - 273.15

/-- converters.py:268 -/
def from_rankine_to_celcius (rankine : ℚ) : ℚ :=
  from_kelvin_to_celcius (rankine / 1.8)

/-- `TemperatureUnitConverter.convert_from_celcius` (converters.py:229).
Raises `InvalidUnitConversion` when the target is not a temperature unit.
The trailing `return 0` in the source is unreachable: the dispatch covers all
four enum members. -/
def convert_from_celcius (value : ℚ) (toU : MeasurementUnit) :
    Except ConvError ℚ :=
  match toU with
  | .temperature .CELCIUS => .ok value
  | .temperature .FAHRENHEIT => .ok (from_celcius_to_fahrenheit value)
  | .temperature .KELVIN => .ok (from_celcius_to_kelvin value)
  | .temperature .RANKINE => .ok (from_celcius_to_rankine value)
  | _ => .error .InvalidUnitConversion

/-- `TemperatureUnitConverter.convert` (converters.py:199): pivots through
Celsius. -/
def convert (value : ℚ) (fromU toU : MeasurementUnit) : Except ConvError ℚ :=
  match fromU with
  | .temperature .CELCIUS => convert_from_celcius value toU
  | .temperature .FAHRENHEIT =>
      convert_from_celcius (from_fahrenhet_to_celcius value) toU
  | .temperature .KELVIN =>
      convert_from_celcius (from_kelvin_to_celcius value) toU
  | .temperature .RANKINE =>
      convert_from_celcius (from_rankine_to_celcius value) toU
  | _ => .error .InvalidUnitConversion

end TemperatureUnitConverter

namespace AliasedPressureUnitConverter

def BAR_TO_PSI : ℚ := 14.5038

def BAR_TO_PASCAL : ℚ := 100000

def BAR_TO_KILOPASCAL : ℚ := 100

/-- `AliasedPressureUnitConverter.get_factor_from_bar` (converters.py:302).
Note the `KILO_PASCAL` branch of the source returns
`_from_unit_to_kilounit()` (= 1/1000), not `BAR_TO_KILOPASCAL`. -/
def get_factor_from_bar (toU : MeasurementUnit) : Except ConvError ℚ :=
  match toU with
  | .pressure .BAR => .ok 1
  | .pressure .MILLI_BAR => .ok from_unit_to_milliunit
  | .pressure .PSI => .ok BAR_TO_PSI
  | .pressure .PASCAL => .ok BAR_TO_PASCAL
  | .pressure .KILO_PASCAL => .ok from_unit_to_kilounit
  | _ => .error .InvalidUnitConversion

/-- `AliasedPressureUnitConverter.get_factor` (converters.py:279). -/
def get_factor (fromU toU : MeasurementUnit) : Except ConvError ℚ :=
  match fromU with
  | .pressure .BAR => get_factor_from_bar toU
  | .pressure .MILLI_BAR =>
      (get_factor_from_bar toU).map (from_milliunit_to_unit * ·)
  | .pressure .PSI => (get_factor_from_bar toU).map ((1 / BAR_TO_PSI) * ·)
  | .pressure .PASCAL =>
      (get_factor_from_bar toU).map ((1 / BAR_TO_PASCAL) * ·)
  | .pressure .KILO_PASCAL =>
      (get_factor_from_bar toU).map ((1 / BAR_TO_KILOPASCAL) * ·)
  | _ => .error .InvalidUnitConversion

/-- `AbsoluteUnitConverter.convert` (converters.py:120):
`value * get_factor(from, to)`. -/
def convert (value : ℚ) (fromU toU : MeasurementUnit) : Except ConvError ℚ :=
  (get_factor fromU toU).map (value * ·)

end AliasedPressureUnitConverter

namespace LengthUnitConverter

def METER_TO_INCH : ℚ := 39.37

def METER_TO_FOOT : ℚ := 3.281

/-- `LengthUnitConverter.get_factor_from_meter` (converters.py:354). -/
def get_factor_from_meter (toU : MeasurementUnit) : Except ConvError ℚ :=
  match toU with
  | .length .METER => .ok 1
  | .length .MILLI_METER => .ok from_unit_to_milliunit
  | .length .CENTI_METER => .ok from_unit_to_centiunit
  | .length .KILO_METER => .ok from_unit_to_kilounit
  | .length .INCH => .ok METER_TO_INCH
  | .length .FOOT => .ok METER_TO_FOOT
  | _ => .error .InvalidUnitConversion

/-- `LengthUnitConverter.get_factor` (converters.py:329). -/
def get_factor (fromU toU : MeasurementUnit) : Except ConvError ℚ :=
  match fromU with
  | .length .METER => get_factor_from_meter toU
  | .length .MILLI_METER =>
      (get_factor_from_meter toU).map (from_milliunit_to_unit * ·)
  | .length .CENTI_METER =>
      (get_factor_from_meter toU).map (from_centiunit_to_unit * ·)
  | .length .KILO_METER =>
      (get_factor_from_meter toU).map (from_kilounit_to_unit * ·)
  | .length .INCH => (get_factor_from_meter toU).map ((1 / METER_TO_INCH) * ·)
  | .length .FOOT => (get_factor_from_meter toU).map ((1 / METER_TO_FOOT) * ·)
  | _ => .error .InvalidUnitConversion

/-- `AbsoluteUnitConverter.convert` specialised to the length converter. -/
def convert (value : ℚ) (fromU toU : MeasurementUnit) : Except ConvError ℚ :=
  (get_factor fromU toU).map (value * ·)

end LengthUnitConverter

namespace MassUnitConverter

def KILOGRAM_TO_MILLIGRAM : ℚ := 1000000

def KILOGRAM_TO_METRIC_TONNE : ℚ := 1 / 1000

def KILOGRAM_TO_POUND : ℚ := 2.205

/-- `MassUnitConverter.get_factor_from_kilogram` (converters.py:415). -/
def get_factor_from_kilogram (toU : MeasurementUnit) : Except ConvError ℚ :=
  match toU with
  | .mass .KILO_GRAM => .ok 1
  | .mass .MILLI_GRAM => .ok KILOGRAM_TO_MILLIGRAM
  | .mass .GRAM => .ok from_kilounit_to_unit
  | .mass .METRIC_TONNE => .ok KILOGRAM_TO_METRIC_TONNE
  | .mass .POUND => .ok KILOGRAM_TO_POUND
  | _ => .error .InvalidUnitConversion

/-- `MassUnitConverter.get_factor` (converters.py:384). The `GRAM` branch of
the source multiplies by `_from_unit_to_kilounit()` (= 1/1000). -/
def get_factor (fromU toU : MeasurementUnit) : Except ConvError ℚ :=
  match fromU with
  | .mass .KILO_GRAM => get_factor_from_kilogram toU
  | .mass .MILLI_GRAM =>
      (get_factor_from_kilogram toU).map ((1 / KILOGRAM_TO_MILLIGRAM) * ·)
  | .mass .GRAM => (get_factor_from_kilogram toU).map (from_unit_to_kilounit * ·)
  | .mass .METRIC_TONNE =>
      (get_factor_from_kilogram toU).map ((1 / KILOGRAM_TO_METRIC_TONNE) * ·)
  | .mass .POUND =>
      (get_factor_from_kilogram toU).map ((1 / KILOGRAM_TO_POUND) * ·)
  | _ => .error .InvalidUnitConversion

/-- `AbsoluteUnitConverter.convert` specialised to the mass converter. -/
def convert (value : ℚ) (fromU toU : MeasurementUnit) : Except ConvError ℚ :=
  (get_factor fromU toU).map (value * ·)

end MassUnitConverter

namespace AmountUnitConverter

/-- `AmountUnitConverter.get_factor_from_mol` (converters.py:456). -/
def get_factor_from_mol (toU : MeasurementUnit) : Except ConvError ℚ :=
  match toU with
  | .amount .MOL => .ok 1
  | .amount .KILO_MOL => .ok from_unit_to_kilounit
  | _ => .error .InvalidUnitConversion

/-- `AmountUnitConverter.get_factor` (converters.py:439). -/
def get_factor (fromU toU : MeasurementUnit) : Except ConvError ℚ :=
  match fromU with
  | .amount .MOL => get_factor_from_mol toU
  | .amount .KILO_MOL =>
      (get_factor_from_mol toU).map (from_kilounit_to_unit * ·)
  | _ => .error .InvalidUnitConversion

/-- `AbsoluteUnitConverter.convert` specialised to the amount converter. -/
def convert (value : ℚ) (fromU toU : MeasurementUnit) : Except ConvError ℚ :=
  (get_factor fromU toU).map (value * ·)

end AmountUnitConverter

namespace TimeUnitConverter

def SECOND_TO_MINUTE : ℚ := 1 / 60

def SECOND_TO_HOUR : ℚ := 1 / 60 / 60

def SECOND_TO_DAY : ℚ := 1 / 60 / 60 / 24

/-- `TimeUnitConverter.get_factor_from_second` (converters.py:503). -/
def get_factor_from_second (toU : MeasurementUnit) : Except ConvError ℚ :=
  match toU with
  | .time .SECOND => .ok 1
  | .time .MILLI_SECOND => .ok from_unit_to_milliunit
  | .time .MINUTE => .ok SECOND_TO_MINUTE
  | .time .HOUR => .ok SECOND_TO_HOUR
  | .time .DAY => .ok SECOND_TO_DAY
  | _ => .error .InvalidUnitConversion

/-- `TimeUnitConverter.get_factor` (converters.py:478). -/
def get_factor (fromU toU : MeasurementUnit) : Except ConvError ℚ :=
  match fromU with
  | .time .SECOND => get_factor_from_second toU
  | .time .MILLI_SECOND =>
      (get_factor_from_second toU).map (from_milliunit_to_unit * ·)
  | .time .MINUTE =>
      (get_factor_from_second toU).map ((1 / SECOND_TO_MINUTE) * ·)
  | .time .HOUR => (get_factor_from_second toU).map ((1 / SECOND_TO_HOUR) * ·)
  | .time .DAY => (get_factor_from_second toU).map ((1 / SECOND_TO_DAY) * ·)
  | _ => .error .InvalidUnitConversion

/-- `AbsoluteUnitConverter.convert` specialised to the time converter. -/
def convert (value : ℚ) (fromU toU : MeasurementUnit) : Except ConvError ℚ :=
  (get_factor fromU toU).map (value * ·)

end TimeUnitConverter

namespace EnergyUnitConverter

def JOULE_TO_CALORIE : ℚ := 1 / 4.184

def JOULE_TO_KILOCALORIE : ℚ := 1 / 4.184 / 1000

def JOULE_TO_BTU : ℚ := 1 / 1055

/-- `EnergyUnitConverter.get_factor_from_joule` (converters.py:558). -/
def get_factor_from_joule (toU : MeasurementUnit) : Except ConvError ℚ :=
  match toU with
  | .energy .JOULE => .ok 1
  | .energy .KILO_JOULE => .ok from_unit_to_kilounit
  | .energy .GIGA_JOULE => .ok from_gigaunit_to_unit
  | .energy .CALORIE => .ok JOULE_TO_CALORIE
  | .energy .KILO_CALORIE => .ok JOULE_TO_KILOCALORIE
  | .energy .BTU => .ok JOULE_TO_BTU
  | _ => .error .InvalidUnitConversion

/-- `EnergyUnitConverter.get_factor` (converters.py:531). Embedded exactly as
the source dispatch:
  - there is no `MEGA_JOULE` branch, so a `MEGA_JOULE` source unit falls
    through to the trailing `return 0` (without inspecting `to`);
  - the `BTU` branch multiplies by `JOULE_TO_BTU` itself, not its
    reciprocal (converters.py:553);
  - `GIGA_JOULE` as target returns `_from_gigaunit_to_unit()`
    (converters.py:570). -/
def get_factor (fromU toU : MeasurementUnit) : Except ConvError ℚ :=
  match fromU with
  | .energy .JOULE => get_factor_from_joule toU
  | .energy .KILO_JOULE =>
      (get_factor_from_joule toU).map (from_kilounit_to_unit * ·)
  | .energy .GIGA_JOULE =>
      (get_factor_from_joule toU).map (from_gigaunit_to_unit * ·)
  | .energy .CALORIE =>
      (get_factor_from_joule toU).map ((1 / JOULE_TO_CALORIE) * ·)
  | .energy .KILO_CALORIE =>
      (get_factor_from_joule toU).map ((1 / JOULE_TO_KILOCALORIE) * ·)
  | .energy .BTU => (get_factor_from_joule toU).map (JOULE_TO_BTU * ·)
  | .energy .MEGA_JOULE => .ok 0
  | _ => .error .InvalidUnitConversion

/-- `AbsoluteUnitConverter.convert` specialised to the energy converter. -/
def convert (value : ℚ) (fromU toU : MeasurementUnit) : Except ConvError ℚ :=
  (get_factor fromU toU).map (value * ·)

end EnergyUnitConverter

/-! ## Converter registry and the composite converter

The registry `_converters` (converters.py:23) maps generic descriptors to
converter classes; `CompositePhysicalPropertyUnitConverter` only ever looks up
single-family keys (`type(from_d.unit)`, converters.py:172/189), so the
registry is embedded at the family level. The keys registered at import time
are the seven family classes (converters.py:196-524); `NonDimensionalUnit`
has no registered converter, so lookup for it raises `UndefinedConverter`. -/

/-- Tags for the converter classes registered for a single unit family. -/
inductive FamilyConverterTag where
  | temperatureTag | pressureTag | lengthTag | massTag | amountTag | timeTag
  | energyTag
deriving DecidableEq, Repr

/-- `get_converter` (converters.py:26) restricted to family keys. -/
def get_converter : UnitType → Except ConvError FamilyConverterTag
  | .TemperatureT => .ok .temperatureTag
  | .PressureT => .ok .pressureTag
  | .LengthT => .ok .lengthTag
  | .MassT => .ok .massTag
  | .AmountT => .ok .amountTag
  | .TimeT => .ok .timeTag
  | .EnergyT => .ok .energyTag
  | .NonDimensionalT => .error .UndefinedConverter

/-- `issubclass(converter, AbsoluteUnitConverter)` (converters.py:173/190):
`TemperatureUnitConverter` is the only family converter that is not an
`AbsoluteUnitConverter` subclass. -/
def FamilyConverterTag.is_absolute : FamilyConverterTag → Bool
  | .temperatureTag => false
  | _ => true

/-- `converter.get_factor` dispatched through the registry tag. The
temperature tag has no `get_factor` in the source (the call site is guarded by
the `is_absolute` check), so that branch is an unreachable error value. -/
def FamilyConverterTag.get_factor :
    FamilyConverterTag → MeasurementUnit → MeasurementUnit → Except ConvError ℚ
  | .temperatureTag => fun _ _ => .error .InvalidUnitConversion
  | .pressureTag => AliasedPressureUnitConverter.get_factor
  | .lengthTag => LengthUnitConverter.get_factor
  | .massTag => MassUnitConverter.get_factor
  | .amountTag => AmountUnitConverter.get_factor
  | .timeTag => TimeUnitConverter.get_factor
  | .energyTag => EnergyUnitConverter.get_factor

namespace CompositePhysicalPropertyUnitConverter

/-- One iteration of the loop in `get_numerator_factor`/
`get_denominator_factor` (converters.py:166-175, 183-191): find the matching
dimension on the `to` side, look the family converter up, and multiply the
factor in only when the converter is an `AbsoluteUnitConverter` subclass. -/
def factor_step (toLookup : GenericDimension → Option Dimension)
    (acc : ℚ) (from_d : Dimension) : Except ConvError ℚ :=
  match toLookup from_d.to_generic with
  | none => .error .InvalidUnitConversion
  | some to_d => do
      let converter ← get_converter from_d.unit.unitType
      if converter.is_absolute then do
        let f ← converter.get_factor from_d.unit to_d.unit
        pure (acc * f)
      else
        pure acc

/-- `CompositePhysicalPropertyUnitConverter.get_numerator_factor`
(converters.py:162). -/
def get_numerator_factor (from_dimension to_dimension : CompositeDimension) :
    Except ConvError ℚ :=
  from_dimension.numerator.foldlM
    (factor_step to_dimension.get_numerator) 1

/-- `CompositePhysicalPropertyUnitConverter.get_denominator_factor`
(converters.py:178). -/
def get_denominator_factor (from_dimension to_dimension : CompositeDimension) :
    Except ConvError ℚ :=
  from_dimension.denominator.foldlM
    (factor_step to_dimension.get_denominator) 1

/-- `CompositePhysicalPropertyUnitConverter.get_factor` (converters.py:154):
numerator factor divided by denominator factor. (Python would raise
`ZeroDivisionError` on a zero denominator factor; `ℚ` division returns 0
there, a case none of the stated theorems touches.) -/
def get_factor (from_dimension to_dimension : CompositeDimension) :
    Except ConvError ℚ := do
  let n ← get_numerator_factor from_dimension to_dimension
  let d ← get_denominator_factor from_dimension to_dimension
  pure (n / d)

end CompositePhysicalPropertyUnitConverter

/-- The generic descriptor `MassUnit / TimeUnit` registered for
`MassRateUnitConverter` (converters.py:605), built by
`MeasurementUnitMeta.__truediv__` on two unit classes. -/
def massRateGeneric : GenericCompositeDimension :=
  unitTypeTruedivUnitType .MassT .TimeT

/-- `MassRateUnitConverter.convert` (converters.py:608). -/
def MassRateUnitConverter.convert (value : ℚ)
    (from_descriptor to_descriptor : CompositeDimension) : Except ConvError ℚ :=
  if !(to_descriptor.isinstance massRateGeneric)
      || !(from_descriptor.isinstance massRateGeneric) then
    .error .InvalidUnitConversion
  else
    (CompositePhysicalPropertyUnitConverter.get_factor
      from_descriptor to_descriptor).map (value * ·)

/-- The generic descriptor
`MassUnit * (LengthUnit**2) / (TimeUnit**2) / TemperatureUnit / AmountUnit`
registered for `GasConstantUnitConverter` (converters.py:673-675), built
step by step with the source's operator semantics. -/
def gasConstantGeneric : GenericCompositeDimension :=
  (((unitTypeMulGeneric .MassT ⟨.LengthT, 2⟩).truedivGeneric
      ⟨.TimeT, 2⟩).truedivUnitType .TemperatureT).truedivUnitType .AmountT

/-- `GasConstantUnitConverter.convert` (converters.py:677). -/
def GasConstantUnitConverter.convert (value : ℚ)
    (from_descriptor to_descriptor : CompositeDimension) : Except ConvError ℚ :=
  if !(to_descriptor.isinstance gasConstantGeneric)
      || !(from_descriptor.isinstance gasConstantGeneric) then
    .error .InvalidUnitConversion
  else
    (CompositePhysicalPropertyUnitConverter.get_factor
      from_descriptor to_descriptor).map (value * ·)

/-! ## Physical properties (`crdlib/properties/properties.py`) -/

/-- A plain (or aliased plain) physical property: a value with a single
`MeasurementUnit` descriptor (properties.py:70/111). -/
structure PlainPhysicalProperty where
  value : ℚ
  unit_descriptor : MeasurementUnit
deriving DecidableEq, Repr

/-- A composite physical property: a value with a `CompositeDimension`
descriptor (properties.py:138). -/
structure CompositePhysicalProperty where
  value : ℚ
  unit_descriptor : CompositeDimension
deriving DecidableEq, Repr

/-- `Temperature.to_unit` (properties.py:43 via `from_physical_property`,
properties.py:49): the registry keyed by `Temperature.generic_descriptor =
TemperatureUnit` (properties.py:184) yields `TemperatureUnitConverter`. -/
def Temperature.to_unit (p : PlainPhysicalProperty) (u : MeasurementUnit) :
    Except ConvError PlainPhysicalProperty :=
  (TemperatureUnitConverter.convert p.value p.unit_descriptor u).map (⟨·, u⟩)

/-- `Length.to_unit`: the registry keyed by `LengthUnit` (properties.py:188)
yields `LengthUnitConverter`. -/
def Length.to_unit (p : PlainPhysicalProperty) (u : MeasurementUnit) :
    Except ConvError PlainPhysicalProperty :=
  (LengthUnitConverter.convert p.value p.unit_descriptor u).map (⟨·, u⟩)

/-- `Pressure.to_unit`: the registry keyed by `PressureUnit`
(properties.py:208) yields `AliasedPressureUnitConverter`. -/
def Pressure.to_unit (p : PlainPhysicalProperty) (u : MeasurementUnit) :
    Except ConvError PlainPhysicalProperty :=
  (AliasedPressureUnitConverter.convert p.value p.unit_descriptor u).map
    (⟨·, u⟩)

/-- `MassRate.to_unit`: the registry keyed by `MassUnit / TimeUnit`
(properties.py:228) yields `MassRateUnitConverter`. -/
def MassRate.to_unit (p : CompositePhysicalProperty) (c : CompositeDimension) :
    Except ConvError CompositePhysicalProperty :=
  (MassRateUnitConverter.convert p.value p.unit_descriptor c).map (⟨·, c⟩)

/-- `Pressure.reference_unit_mapping["composite"]` (properties.py:213):
`MassUnit.KILO_GRAM / LengthUnit.METER / (TimeUnit.SECOND**2)`, built with the
source operator semantics: unit/unit division, then composite/dimension
division with the squared second. -/
def Pressure.reference_unit_composite : CompositeDimension :=
  ((MeasurementUnit.mass .KILO_GRAM).dim.truedivDim
      (MeasurementUnit.length .METER).dim).truedivDim
    ((MeasurementUnit.time .SECOND).dim.pow 2)

/-- `AliasedPhysicalProperty.to_base_units` (properties.py:127) specialised to
`Pressure`: convert to the reference alias unit
`reference_unit_mapping["alias"] = PASCAL` (properties.py:212), then wrap the
resulting value unchanged in a `CompositePhysicalProperty` carrying the base
composite `kg/m/s²`. -/
def Pressure.to_base_units (p : PlainPhysicalProperty) :
    Except ConvError CompositePhysicalProperty :=
  (Pressure.to_unit p (.pressure .PASCAL)).map
    (fun q => ⟨q.value, Pressure.reference_unit_composite⟩)

/-- `SI_UNITS` (units/units.py:72): the canonical SI member per family; the
aliased families (`PressureUnit`, `EnergyUnit`) and `NonDimensionalUnit` have
no entry. -/
def SI_UNITS : UnitType → Option MeasurementUnit
  | .TemperatureT => some (.temperature .KELVIN)
  | .LengthT => some (.length .METER)
  | .MassT => some (.mass .KILO_GRAM)
  | .AmountT => some (.amount .MOL)
  | .TimeT => some (.time .SECOND)
  | _ => none

/-- Modelled from the spec: `to_si()` is absent from the source tree (the
property classes in `properties.py` define only `to_unit`,
`from_physical_property` and `to_base_units`; the repository's tests call
`to_si`). Per spec §4.5, `to_si` is "`to_unit` with the family's canonical SI
member substituted recursively into the descriptor shape"; for a plain
property the substituted descriptor is `SI_UNITS[family]`. Families without
an `SI_UNITS` entry are left unspecified by the spec and mapped to
`UndefinedConverter` here. -/
def siSubstituteUnit (u : MeasurementUnit) : Option MeasurementUnit :=
  SI_UNITS u.unitType

/-- Modelled from the spec: `Temperature.to_si` = `to_unit` at the
SI-substituted plain descriptor (spec §4.5). -/
def Temperature.to_si (p : PlainPhysicalProperty) :
    Except ConvError PlainPhysicalProperty :=
  match siSubstituteUnit p.unit_descriptor with
  | some si => Temperature.to_unit p si
  | none => .error .UndefinedConverter

/-- Modelled from the spec: `Length.to_si`, as for `Temperature.to_si`. -/
def Length.to_si (p : PlainPhysicalProperty) :
    Except ConvError PlainPhysicalProperty :=
  match siSubstituteUnit p.unit_descriptor with
  | some si => Length.to_unit p si
  | none => .error .UndefinedConverter

/-- Modelled from the spec: the "recursive substitution into the descriptor
shape" of spec §4.5 on a composite descriptor replaces every dimension's unit
by its family's SI member, keeping the powers. -/
def CompositeDimension.siSubstitute (c : CompositeDimension) :
    Option CompositeDimension := do
  let num ← c.numerator.mapM
    (fun d => (siSubstituteUnit d.unit).map (⟨·, d.power⟩))
  let den ← c.denominator.mapM
    (fun d => (siSubstituteUnit d.unit).map (⟨·, d.power⟩))
  pure ⟨num, den⟩

/-- Modelled from the spec: `MassRate.to_si` = `to_unit` at the
SI-substituted composite descriptor (spec §4.5). -/
def MassRate.to_si (p : CompositePhysicalProperty) :
    Except ConvError CompositePhysicalProperty :=
  match p.unit_descriptor.siSubstitute with
  | some si => MassRate.to_unit p si
  | none => .error .UndefinedConverter

/-! ## `simplify` (modelled from the spec)

`CompositeDimension.simplify` is exercised by the repository's tests
(`tests/unit/properties/units/test_descriptors.py`) but its implementation is
not under `src/` (the `units/descriptors.py` module is absent, and the older
`units.py` revision has no `simplify`). The definitions below are modelled
from spec §4.1: merge duplicate occurrences of the same unit within a side by
summing powers; cancel a unit occurring on both sides by subtracting powers
(removing both entries when the powers are equal); per the §8 "negative
exponent merge" property, an entry whose resulting power is negative moves to
the opposite side with the power negated. -/

/-- Modelled from the spec: merge duplicates of the same unit within one side
by summing powers (spec §4.1 step 2), keeping first-occurrence order. -/
def insertMergeDim (acc : List Dimension) (d : Dimension) : List Dimension :=
  if acc.any (fun x => x.unit == d.unit) then
    acc.map (fun x => if x.unit == d.unit then ⟨x.unit, x.power + d.power⟩ else x)
  else
    acc ++ [d]

/-- Modelled from the spec: one side of a composite dimension after merging
like units. -/
def mergeSide (l : List Dimension) : List Dimension :=
  l.foldl insertMergeDim []

/-- Modelled from the spec: cancel units occurring in both sides by
subtracting powers (spec §4.1 step 1). A positive difference stays in the
numerator, a negative one in the denominator, a zero difference removes the
unit from both sides; only exact-unit matches cancel (step 3). -/
def cancelDims : List Dimension → List Dimension →
    List Dimension × List Dimension
  | [], den => ([], den)
  | n :: rest, den =>
    match den.find? (fun d => d.unit == n.unit) with
    | none =>
        let r := cancelDims rest den
        (n :: r.1, r.2)
    | some d =>
        let rest_den := den.eraseP (fun x => x.unit == n.unit)
        let diff := n.power - d.power
        if diff = 0 then cancelDims rest rest_den
        else if 0 < diff then
          let r := cancelDims rest rest_den
          (⟨n.unit, diff⟩ :: r.1, r.2)
        else
          let r := cancelDims rest rest_den
          (r.1, ⟨n.unit, -diff⟩ :: r.2)

/-- Modelled from the spec: move entries with a negative power to the other
side with the power negated (spec §8, "negative exponent merge"). -/
def flipNegative (num den : List Dimension) :
    List Dimension × List Dimension :=
  (num.filter (fun d => !(d.power < 0))
      ++ (den.filter (fun d => d.power < 0)).map (fun d => ⟨d.unit, -d.power⟩),
   den.filter (fun d => !(d.power < 0))
      ++ (num.filter (fun d => d.power < 0)).map (fun d => ⟨d.unit, -d.power⟩))

/-- Modelled from the spec: `CompositeDimension.simplify`, the in-place
canonicalization of spec §4.1; the embedding returns the canonicalized value
that the Python method stores back into `self`. -/
def CompositeDimension.simplify (c : CompositeDimension) : CompositeDimension :=
  let num := mergeSide c.numerator
  let den := mergeSide c.denominator
  let r := cancelDims num den
  let f := flipNegative r.1 r.2
  ⟨f.1, f.2⟩

/-! ## Heap model for the in-place power operator

`Dimension.__pow__` and `GenericDimension.__pow__` mutate the receiver
(`self.power *= power; return self`). To state what every alias of the
receiver observes, dimensions are placed in a heap of object addresses. -/

/-- A heap of `Dimension` objects, indexed by address. -/
structure DimensionHeap where
  dims : Nat → Dimension

/-- `Dimension.__pow__` (units.py:426-432) as a heap operation: the record at
the receiver's address is updated with the scaled power and the *same
address* is returned (`return self`). The `isinstance(self,
CompositeDimension)` guard in the source can never fire (a `Dimension` is
never a `CompositeDimension`), so no error case exists. -/
def DimensionHeap.powAt (h : DimensionHeap) (a : Nat) (n : ℚ) :
    DimensionHeap × Nat :=
  (⟨fun i => if i = a then (h.dims a).pow n else h.dims i⟩, a)

/-- A heap of `GenericDimension` objects, indexed by address. -/
structure GenericDimensionHeap where
  dims : Nat → GenericDimension

/-- `GenericDimension.__pow__` (units.py:333-335) as a heap operation. -/
def GenericDimensionHeap.powAt (h : GenericDimensionHeap) (a : Nat) (n : ℚ) :
    GenericDimensionHeap × Nat :=
  (⟨fun i => if i = a then (h.dims a).pow n else h.dims i⟩, a)

/-! ## Concrete descriptors used in the theorems -/

/-- A gas-constant descriptor `kg·m²/(s²·T·mol)` with SI members everywhere
except the temperature slot, which carries the given temperature unit. -/
def gasConstantDimension (t : TemperatureUnit) : CompositeDimension :=
  ⟨[⟨.mass .KILO_GRAM, 1⟩, ⟨.length .METER, 2⟩],
   [⟨.time .SECOND, 2⟩, ⟨.temperature t, 1⟩, ⟨.amount .MOL, 1⟩]⟩

/-- `LengthUnit.METER / TimeUnit.SECOND` as a `CompositeDimension`. -/
def meterPerSecond : CompositeDimension :=
  (MeasurementUnit.length .METER).dim.truedivDim (MeasurementUnit.time .SECOND).dim

/-- `MassUnit.KILO_GRAM / TimeUnit.HOUR` as a `CompositeDimension`. -/
def kilogramPerHour : CompositeDimension :=
  (MeasurementUnit.mass .KILO_GRAM).dim.truedivDim (MeasurementUnit.time .HOUR).dim

/-- `MassUnit.METRIC_TONNE / TimeUnit.HOUR` as a `CompositeDimension`. -/
def metricTonnePerHour : CompositeDimension :=
  (MeasurementUnit.mass .METRIC_TONNE).dim.truedivDim
    (MeasurementUnit.time .HOUR).dim

/-- `MassUnit.KILO_GRAM / TimeUnit.SECOND` as a `CompositeDimension`. -/
def kilogramPerSecond : CompositeDimension :=
  (MeasurementUnit.mass .KILO_GRAM).dim.truedivDim
    (MeasurementUnit.time .SECOND).dim

/-! ## Theorems for the claims -/

/-- Claim C1. The claim states `get_factor(u, u) == 1` for every unit of the
six absolute families. This theorem records what the converters actually
compute: the identity factor holds for every Length, Mass, Amount and Time
unit, for every Pressure unit except `KILO_PASCAL` (where the source returns
`(1/BAR_TO_KILOPASCAL) * _from_unit_to_kilounit() = 1/100000` because
`get_factor_from_bar` uses `_from_unit_to_kilounit` instead of
`BAR_TO_KILOPASCAL`), and for every Energy unit except `MEGA_JOULE` (no
dispatch branch, silent `return 0`), `BTU` (the from-`BTU` branch multiplies
by `JOULE_TO_BTU` instead of its reciprocal, giving `(1/1055)² = 1/1113025`)
and `GIGA_JOULE` (`get_factor_from_joule` returns `_from_gigaunit_to_unit()`
instead of its reciprocal, giving `10⁹·10⁹ = 10¹⁸`). -/
theorem C1_identity_factor_code_bug :
    (∀ u : LengthUnit,
      LengthUnitConverter.get_factor (.length u) (.length u) = .ok 1)
  ∧ (∀ u : MassUnit,
      MassUnitConverter.get_factor (.mass u) (.mass u) = .ok 1)
  ∧ (∀ u : AmountUnit,
      AmountUnitConverter.get_factor (.amount u) (.amount u) = .ok 1)
  ∧ (∀ u : TimeUnit,
      TimeUnitConverter.get_factor (.time u) (.time u) = .ok 1)
  ∧ (∀ u : PressureUnit, u = .KILO_PASCAL ∨
      AliasedPressureUnitConverter.get_factor (.pressure u) (.pressure u) = .ok 1)
  ∧ AliasedPressureUnitConverter.get_factor
      (.pressure .KILO_PASCAL) (.pressure .KILO_PASCAL) = .ok (1 / 100000)
  ∧ (∀ u : EnergyUnit, u = .MEGA_JOULE ∨ u = .BTU ∨ u = .GIGA_JOULE ∨
      EnergyUnitConverter.get_factor (.energy u) (.energy u) = .ok 1)
  ∧ EnergyUnitConverter.get_factor
      (.energy .MEGA_JOULE) (.energy .MEGA_JOULE) = .ok 0
  ∧ EnergyUnitConverter.get_factor
      (.energy .BTU) (.energy .BTU) = .ok (1 / 1113025)
  ∧ EnergyUnitConverter.get_factor
      (.energy .GIGA_JOULE) (.energy .GIGA_JOULE) = .ok 1000000000000000000 := by
  refine ⟨?_, ?_, ?_, ?_, ?_, ?_, ?_, rfl, ?_, ?_⟩
  · intro u
    cases u <;>
      norm_num [LengthUnitConverter.get_factor,
        LengthUnitConverter.get_factor_from_meter,
        LengthUnitConverter.METER_TO_INCH, LengthUnitConverter.METER_TO_FOOT,
        from_milliunit_to_unit, from_centiunit_to_unit, from_kilounit_to_unit,
        from_unit_to_milliunit, from_unit_to_centiunit, from_unit_to_kilounit,
        Except.map]
  · intro u
    cases u <;>
      norm_num [MassUnitConverter.get_factor,
        MassUnitConverter.get_factor_from_kilogram,
        MassUnitConverter.KILOGRAM_TO_MILLIGRAM,
        MassUnitConverter.KILOGRAM_TO_METRIC_TONNE,
        MassUnitConverter.KILOGRAM_TO_POUND, from_kilounit_to_unit,
        from_unit_to_kilounit, Except.map]
  · intro u
    cases u <;>
      norm_num [AmountUnitConverter.get_factor,
        AmountUnitConverter.get_factor_from_mol,
        from_kilounit_to_unit, from_unit_to_kilounit, Except.map]
  · intro u
    cases u <;>
      norm_num [TimeUnitConverter.get_factor,
        TimeUnitConverter.get_factor_from_second,
        TimeUnitConverter.SECOND_TO_MINUTE, TimeUnitConverter.SECOND_TO_HOUR,
        TimeUnitConverter.SECOND_TO_DAY, from_milliunit_to_unit,
        from_unit_to_milliunit, Except.map]
  · intro u
    cases u
    case KILO_PASCAL => exact Or.inl rfl
    all_goals refine Or.inr ?_
    all_goals
      norm_num [AliasedPressureUnitConverter.get_factor,
        AliasedPressureUnitConverter.get_factor_from_bar,
        AliasedPressureUnitConverter.BAR_TO_PSI,
        AliasedPressureUnitConverter.BAR_TO_PASCAL,
        from_milliunit_to_unit, from_unit_to_milliunit, Except.map]
  · norm_num [AliasedPressureUnitConverter.get_factor,
      AliasedPressureUnitConverter.get_factor_from_bar,
      AliasedPressureUnitConverter.BAR_TO_KILOPASCAL, from_unit_to_kilounit,
      Except.map]
  · intro u
    cases u
    case MEGA_JOULE => exact Or.inl rfl
    case BTU => exact Or.inr (Or.inl rfl)
    case GIGA_JOULE => exact Or.inr (Or.inr (Or.inl rfl))
    all_goals refine Or.inr (Or.inr (Or.inr ?_))
    all_goals
      norm_num [EnergyUnitConverter.get_factor,
        EnergyUnitConverter.get_factor_from_joule,
        EnergyUnitConverter.JOULE_TO_CALORIE,
        EnergyUnitConverter.JOULE_TO_KILOCALORIE,
        from_kilounit_to_unit, from_unit_to_kilounit, from_gigaunit_to_unit,
        Except.map]
  · norm_num [EnergyUnitConverter.get_factor,
      EnergyUnitConverter.get_factor_from_joule,
      EnergyUnitConverter.JOULE_TO_BTU, Except.map]
  · norm_num [EnergyUnitConverter.get_factor,
      EnergyUnitConverter.get_factor_from_joule,
      from_gigaunit_to_unit, Except.map]

/-- Claim C2, counterexample to the third literal: converting 500 Kelvin to
Fahrenheit yields exactly 440.33 (`1.8·(500 − 273.15) + 32`), which is 420
away from the claimed ≈ 860.33. -/
theorem C2_fahrenheit_literal_counterexample :
    TemperatureUnitConverter.convert 500
      (.temperature .KELVIN) (.temperature .FAHRENHEIT) = .ok 440.33
  ∧ (440.33 : ℚ) ≠ 860.33
  ∧ (860.33 : ℚ) - 440.33 = 420 := by
  refine ⟨?_, by norm_num, by norm_num⟩
  show Except.ok _ = _
  norm_num [TemperatureUnitConverter.from_celcius_to_fahrenheit,
    TemperatureUnitConverter.from_kelvin_to_celcius]

/-- Claim C2 (amended): temperature conversion pivots through Celsius with
the fixed affine formulas `K = C + 273.15`, `F = 1.8·C + 32`,
`R = (C + 273.15)·1.8` and their inverses; `Temperature(0, CELSIUS)`
converts to 273.15 Kelvin, `Temperature(1000, KELVIN)` to 1800 Rankine, and
`Temperature(500, KELVIN)` to 440.33 Fahrenheit (not ≈ 860.33). -/
theorem C2_temperature_conversion_amended :
    (∀ c : ℚ, TemperatureUnitConverter.convert c
      (.temperature .CELCIUS) (.temperature .KELVIN) = .ok (c + 273.15))
  ∧ (∀ c : ℚ, TemperatureUnitConverter.convert c
      (.temperature .CELCIUS) (.temperature .FAHRENHEIT) = .ok (1.8 * c + 32))
  ∧ (∀ c : ℚ, TemperatureUnitConverter.convert c
      (.temperature .CELCIUS) (.temperature .RANKINE) =
        .ok ((c + 273.15) * 1.8))
  ∧ (∀ k : ℚ, TemperatureUnitConverter.convert k
      (.temperature .KELVIN) (.temperature .CELCIUS) = .ok (k - 273.15))
  ∧ (∀ f : ℚ, TemperatureUnitConverter.convert f
      (.temperature .FAHRENHEIT) (.temperature .CELCIUS) =
        .ok ((f - 32) / 1.8))
  ∧ (∀ r : ℚ, TemperatureUnitConverter.convert r
      (.temperature .RANKINE) (.temperature .CELCIUS) =
        .ok (r / 1.8 - 273.15))
  ∧ Temperature.to_unit ⟨0, .temperature .CELCIUS⟩ (.temperature .KELVIN) =
      .ok ⟨273.15, .temperature .KELVIN⟩
  ∧ Temperature.to_unit ⟨1000, .temperature .KELVIN⟩
      (.temperature .RANKINE) = .ok ⟨1800, .temperature .RANKINE⟩
  ∧ Temperature.to_unit ⟨500, .temperature .KELVIN⟩
      (.temperature .FAHRENHEIT) = .ok ⟨440.33, .temperature .FAHRENHEIT⟩ := by
  refine ⟨fun _ => rfl, fun _ => rfl, fun _ => rfl, fun _ => rfl,
    fun _ => rfl, fun _ => rfl, ?_, ?_, ?_⟩
  · norm_num [Temperature.to_unit, TemperatureUnitConverter.convert,
      TemperatureUnitConverter.convert_from_celcius,
      TemperatureUnitConverter.from_celcius_to_kelvin, Except.map]
  · norm_num [Temperature.to_unit, TemperatureUnitConverter.convert,
      TemperatureUnitConverter.convert_from_celcius,
      TemperatureUnitConverter.from_celcius_to_rankine,
      TemperatureUnitConverter.from_celcius_to_kelvin,
      TemperatureUnitConverter.from_kelvin_to_celcius, Except.map]
  · norm_num [Temperature.to_unit, TemperatureUnitConverter.convert,
      TemperatureUnitConverter.convert_from_celcius,
      TemperatureUnitConverter.from_celcius_to_fahrenheit,
      TemperatureUnitConverter.from_kelvin_to_celcius, Except.map]

/-- Claim C3, counterexample: a gas-constant conversion whose composite
dimensions contain a Temperature entry (Kelvin on the from side, Rankine on
the to side) does not raise `InvalidConversion`; it returns the numeric
result `5` (the temperature entry is skipped). -/
theorem C3_gas_constant_conversion_counterexample :
    GasConstantUnitConverter.convert 5
      (gasConstantDimension .KELVIN) (gasConstantDimension .RANKINE) = .ok 5
  ∧ ∀ e : ConvError, GasConstantUnitConverter.convert 5
      (gasConstantDimension .KELVIN) (gasConstantDimension .RANKINE) ≠
        .error e := by
  have h : GasConstantUnitConverter.convert 5
      (gasConstantDimension .KELVIN) (gasConstantDimension .RANKINE) =
        .ok 5 := by
    show Except.ok _ = _
    norm_num
  refine ⟨h, fun e he => ?_⟩
  rw [h] at he
  simp at he

/-- Claim C3 (amended): composite conversions whose dimensions contain a
Temperature entry do not fail fast; the composite converter skips every
dimension whose registered family converter is not an
`AbsoluteUnitConverter` subclass (converters.py:173/190), so the temperature
entry contributes factor 1 and a numeric result is produced, whatever the
two temperature units are. -/
theorem C3_temperature_term_skipped_amended :
    ∀ (v : ℚ) (t1 t2 : TemperatureUnit),
      GasConstantUnitConverter.convert v
        (gasConstantDimension t1) (gasConstantDimension t2) = .ok v := by
  intro v t1 t2
  cases t1 <;> cases t2 <;>
    · show Except.ok _ = Except.ok v
      norm_num

/-- Claim C4: evaluation of `CompositeDimension.__truediv__` at
`([m]/[s]) / ([kg]/[hr])`. The source (units.py:632) extends the result
denominator with the divisor's *denominator*, producing `[s, hr]`, whereas
the claim (and the spec-mirroring `truedivCompositeSpec`, matching the
generic counterpart at units.py:505-507) requires `[s, kg]`; the two
results differ even under set equality. -/
theorem C4_composite_division_code_bug :
    CompositeDimension.truedivComposite meterPerSecond kilogramPerHour =
      ⟨[(MeasurementUnit.length .METER).dim, (MeasurementUnit.time .HOUR).dim],
       [(MeasurementUnit.time .SECOND).dim, (MeasurementUnit.time .HOUR).dim]⟩
  ∧ CompositeDimension.truedivCompositeSpec meterPerSecond kilogramPerHour =
      ⟨[(MeasurementUnit.length .METER).dim, (MeasurementUnit.time .HOUR).dim],
       [(MeasurementUnit.time .SECOND).dim,
        (MeasurementUnit.mass .KILO_GRAM).dim]⟩
  ∧ CompositeDimension.truedivComposite meterPerSecond kilogramPerHour ≠
      CompositeDimension.truedivCompositeSpec meterPerSecond kilogramPerHour
  ∧ CompositeDimension.eqSet
      (CompositeDimension.truedivComposite meterPerSecond kilogramPerHour)
      (CompositeDimension.truedivCompositeSpec meterPerSecond kilogramPerHour)
      = false :=
  ⟨rfl, rfl, by decide, by decide⟩

/-- Claim C5: `to_si` (modelled from the spec, §4.5) returns `to_unit` at the
descriptor with each family's canonical SI member substituted;
`Temperature(0, CELSIUS).to_si()` yields 273.15 Kelvin,
`Length(2000, MILLI_METER).to_si()` yields 2 Meter, and for a composite
property the substitution acts on every dimension of the descriptor
(`MassRate(10, MT/hr).to_si()` yields 25/9 kg/s). -/
theorem C5_to_si_confirmed :
    (Temperature.to_si ⟨0, .temperature .CELCIUS⟩ =
      .ok ⟨273.15, .temperature .KELVIN⟩)
  ∧ (∀ (v : ℚ) (u : TemperatureUnit),
      Temperature.to_si ⟨v, .temperature u⟩ =
        Temperature.to_unit ⟨v, .temperature u⟩ (.temperature .KELVIN))
  ∧ (Length.to_si ⟨2000, .length .MILLI_METER⟩ = .ok ⟨2, .length .METER⟩)
  ∧ (∀ (v : ℚ) (u : LengthUnit),
      Length.to_si ⟨v, .length u⟩ =
        Length.to_unit ⟨v, .length u⟩ (.length .METER))
  ∧ (MassRate.to_si ⟨10, metricTonnePerHour⟩ =
      .ok ⟨25 / 9, kilogramPerSecond⟩) := by
  refine ⟨?_, fun v u => rfl, ?_, fun v u => rfl, ?_⟩
  · show Except.ok _ = _
    norm_num [TemperatureUnitConverter.from_celcius_to_kelvin]
  · show Except.ok _ = _
    norm_num [from_milliunit_to_unit]
  · show Except.ok _ = _
    norm_num [MassUnitConverter.KILOGRAM_TO_METRIC_TONNE,
      TimeUnitConverter.SECOND_TO_HOUR, kilogramPerSecond,
      MeasurementUnit.dim, Dimension.truedivDim]

/-- Claim C6: `simplify` (modelled from the spec, §4.1) cancels a unit
occurring in both numerator and denominator by subtracting powers — both
entries disappear when the powers are equal, otherwise the difference stays
on the side with the larger power; in particular
`CompositeDimension([METER], [METER]).simplify()` yields empty numerator and
denominator. -/
theorem C6_simplify_cancellation_confirmed :
    (∀ (u : MeasurementUnit) (a b : ℚ),
      CompositeDimension.simplify ⟨[⟨u, a⟩], [⟨u, b⟩]⟩ =
        if a = b then ⟨[], []⟩
        else if 0 < a - b then ⟨[⟨u, a - b⟩], []⟩
        else ⟨[], [⟨u, b - a⟩]⟩)
  ∧ CompositeDimension.simplify
      ⟨[(MeasurementUnit.length .METER).dim],
       [(MeasurementUnit.length .METER).dim]⟩ = ⟨[], []⟩ := by
  have gen : ∀ (u : MeasurementUnit) (a b : ℚ),
      CompositeDimension.simplify ⟨[⟨u, a⟩], [⟨u, b⟩]⟩ =
        if a = b then ⟨[], []⟩
        else if 0 < a - b then ⟨[⟨u, a - b⟩], []⟩
        else ⟨[], [⟨u, b - a⟩]⟩ := by
    intro u a b
    by_cases h1 : a = b
    · subst h1
      simp [CompositeDimension.simplify, mergeSide, insertMergeDim,
        cancelDims, flipNegative]
    · by_cases h2 : 0 < a - b
      · have h3 : ¬ (a - b < 0) := lt_asymm h2
        have h4 : a - b ≠ 0 := sub_ne_zero.mpr h1
        simp [CompositeDimension.simplify, mergeSide, insertMergeDim,
          cancelDims, flipNegative, h1, h2, h3, h4]
      · have h4 : a - b ≠ 0 := sub_ne_zero.mpr h1
        have h5 : a - b < 0 := lt_of_le_of_ne (not_lt.mp h2) h4
        have h6 : 0 < -(a - b) := neg_pos.mpr h5
        have h7 : ¬ (-(a - b) < 0) := lt_asymm h6
        have h8 : a ≤ b := (sub_neg.mp h5).le
        simp [CompositeDimension.simplify, mergeSide, insertMergeDim,
          cancelDims, flipNegative, h1, h2, h4, h7, h8, neg_sub]
  exact ⟨gen, by simpa [MeasurementUnit.dim] using gen (.length .METER) 1 1⟩

/-- Claim C7: `Pressure.to_base_units` converts the value to the reference
alias unit Pascal through the pressure converter and reinterprets that value
unchanged under the base composite `kg/m/s²`; in particular
`Pressure(15, BAR).to_base_units()` has value 1 500 000 and descriptor
`KILO_GRAM / METER / SECOND²`. -/
theorem C7_to_base_units_confirmed :
    Pressure.to_base_units ⟨15, .pressure .BAR⟩ =
      .ok ⟨1500000, Pressure.reference_unit_composite⟩
  ∧ Pressure.reference_unit_composite =
      ⟨[⟨.mass .KILO_GRAM, 1⟩], [⟨.length .METER, 1⟩, ⟨.time .SECOND, 2⟩]⟩
  ∧ (∀ (v : ℚ) (u : PressureUnit),
      Pressure.to_base_units ⟨v, .pressure u⟩ =
        (AliasedPressureUnitConverter.convert v
          (.pressure u) (.pressure .PASCAL)).map
            (fun w => ⟨w, Pressure.reference_unit_composite⟩)) := by
  refine ⟨?_, ?_, ?_⟩
  · show Except.ok _ = _
    norm_num [AliasedPressureUnitConverter.BAR_TO_PASCAL]
  · norm_num [Pressure.reference_unit_composite, MeasurementUnit.dim,
      Dimension.truedivDim, CompositeDimension.truedivDim, Dimension.pow]
  · intro v u
    simp only [Pressure.to_base_units, Pressure.to_unit,
      AliasedPressureUnitConverter.convert]
    cases h : AliasedPressureUnitConverter.get_factor
        (.pressure u) (.pressure .PASCAL) <;>
      simp [Except.map]

/-- Claim C8: `EnergyUnitConverter.get_factor` has no dispatch branch for
`MEGA_JOULE` as source unit and falls through to the fallback `return 0`
without even inspecting the target descriptor, so `convert` returns 0 for
every value and every target unit without signalling an error. -/
theorem C8_mega_joule_silent_zero_confirmed :
    (∀ u : MeasurementUnit,
      EnergyUnitConverter.get_factor (.energy .MEGA_JOULE) u = .ok 0)
  ∧ (∀ (v : ℚ) (u : MeasurementUnit),
      EnergyUnitConverter.convert v (.energy .MEGA_JOULE) u = .ok 0) := by
  refine ⟨fun u => rfl, fun v u => ?_⟩
  simp [EnergyUnitConverter.convert, EnergyUnitConverter.get_factor,
    Except.map]

/-- Claim C9: composite equality compares numerator and denominator as sets,
so duplicate entries collapse — prepending a duplicate dimension leaves both
`CompositeDimension` and `GenericCompositeDimension` equality unchanged
(shown here with `[METER, METER]` vs `[METER]` over equal denominators) —
and `CompositeDimension.isinstance` is exactly generic set-equality of
`to_generic` against the generic shape. -/
theorem C9_set_equality_confirmed :
    (∀ (d : Dimension) (n den : List Dimension),
      CompositeDimension.eqSet ⟨d :: d :: n, den⟩ ⟨d :: n, den⟩ = true)
  ∧ (∀ (g : GenericDimension) (n den : List GenericDimension),
      GenericCompositeDimension.eqSet ⟨g :: g :: n, den⟩ ⟨g :: n, den⟩ = true)
  ∧ (∀ (c : CompositeDimension) (g : GenericCompositeDimension),
      c.isinstance g = GenericCompositeDimension.eqSet c.to_generic g)
  ∧ CompositeDimension.eqSet
      ⟨[(MeasurementUnit.length .METER).dim,
        (MeasurementUnit.length .METER).dim],
       [(MeasurementUnit.time .SECOND).dim]⟩
      ⟨[(MeasurementUnit.length .METER).dim],
       [(MeasurementUnit.time .SECOND).dim]⟩ = true := by
  refine ⟨?_, ?_, fun c g => rfl, by decide⟩
  · intro d n den
    simp [CompositeDimension.eqSet, List.toFinset_cons]
  · intro g n den
    simp [GenericCompositeDimension.eqSet, List.toFinset_cons]

/-- Claim C10: the power operator mutates the receiver in place — in the heap
model, `powAt` returns the receiver's own address, the record at that
address keeps its unit (family) and has its power multiplied by the
exponent, and every other address is untouched; consequently every alias of
the receiver observes the scaled power. Both `Dimension.__pow__` and
`GenericDimension.__pow__` behave this way. -/
theorem C10_pow_in_place_confirmed :
    (∀ (h : DimensionHeap) (a : Nat) (n : ℚ),
      (h.powAt a n).2 = a
      ∧ ((h.powAt a n).1).dims a = ⟨(h.dims a).unit, (h.dims a).power * n⟩
      ∧ (∀ b : Nat, b = a ∨ ((h.powAt a n).1).dims b = h.dims b))
  ∧ (∀ (h : GenericDimensionHeap) (a : Nat) (n : ℚ),
      (h.powAt a n).2 = a
      ∧ ((h.powAt a n).1).dims a =
          ⟨(h.dims a).unit_type, (h.dims a).power * n⟩
      ∧ (∀ b : Nat, b = a ∨ ((h.powAt a n).1).dims b = h.dims b)) := by
  constructor
  · intro h a n
    refine ⟨rfl, by simp [DimensionHeap.powAt, Dimension.pow],
      fun b => ?_⟩
    by_cases hb : b = a
    · exact Or.inl hb
    · exact Or.inr (by simp [DimensionHeap.powAt, hb])
  · intro h a n
    refine ⟨rfl, by simp [GenericDimensionHeap.powAt, GenericDimension.pow],
      fun b => ?_⟩
    by_cases hb : b = a
    · exact Or.inl hb
    · exact Or.inr (by simp [GenericDimensionHeap.powAt, hb])

end Crdlib
